import Mathlib

/-!
Shallow embedding of the Hey Sera backend (`backend.py`): a conversational
document-analysis service keeping per-session chat history and uploaded
documents in two JSON collections on disk.

Modelling conventions:
* Python `dict` (insertion-ordered, unique keys) is `Store α`, an association
  list with Python's assignment semantics (update-in-place, append when new).
* Timestamps (`datetime.now().isoformat()`) are abstracted as `Nat` clock
  readings passed in as parameters; the wall clock is assumed monotone where a
  claim needs it (stated as an explicit hypothesis).
* The remote model call (`model.generate_content`), the PDF/DOCX parsers and
  the UTF-8 codec are external collaborators and appear as function
  parameters; the Latin-1 codec is concrete (every byte maps to the
  same-numbered code point, so it is total).
* File I/O is modelled by passing the stored value through; `json.dump`/
  `json.load` are modelled at the JSON-tree level (`Json` below).
-/

namespace HeySera

abbrev Timestamp := Nat

/-- One chat message as stored in a session record (`backend.py` lines 320-323). -/
structure Message where
  role : String
  content : String
  timestamp : Timestamp
deriving DecidableEq

/-- One chat-session record (`backend.py` lines 252-258). -/
structure Session where
  id : String
  messages : List Message
  documents : List String
  created_at : Timestamp
  last_updated : Timestamp
deriving DecidableEq

/-- One uploaded-document record (`backend.py` lines 386-394). -/
structure Document where
  id : String
  filename : String
  content : String
  uploaded_at : Timestamp
  file_type : String
  file_size : Nat
  text_length : Nat
deriving DecidableEq

/-- A Python `dict` keyed by strings: insertion-ordered association list. -/
abbrev Store (α : Type) := List (String × α)

/-- Lookup `d[k]` / `k in d`: first binding of `k`, if any. -/
def Store.find {α : Type} : Store α → String → Option α
  | [], _ => none
  | p :: t, k => if p.1 = k then some p.2 else Store.find t k

/-- Assignment `d[k] = v`: replace the binding in place if present, else append. -/
def Store.insert {α : Type} : Store α → String → α → Store α
  | [], k, v => [(k, v)]
  | p :: t, k, v => if p.1 = k then (k, v) :: t else p :: Store.insert t k v

/-- Removal `d.pop(k, None)`: drop the binding for `k`. -/
def Store.erase {α : Type} (d : Store α) (k : String) : Store α :=
  d.filter (fun p => !(p.1 == k))

/-- The static system instructions (`SYSTEM_PROMPT`, `backend.py` lines 144-164). -/
def SYSTEM_PROMPT : String :=
  "\nYou are Sera, an AI assistant specialized in policy document analysis. Your role is to:\n\n1. Analyze policy documents with precision and clarity\n2. Answer questions about policy content, implications, and recommendations\n3. Provide summaries, key points, and actionable insights\n4. Help users understand complex policy language in simple terms\n5. Identify potential issues, gaps, or contradictions in policies\n6. Suggest improvements or alternatives when appropriate\n\nAlways maintain a professional yet friendly tone. Be concise but thorough in your responses. \nWhen analyzing documents, focus on:\n- Key objectives and goals\n- Implementation requirements\n- Potential challenges or risks\n- Stakeholder impacts\n- Compliance requirements\n- Financial implications\n\nIf you don\x27t have enough context or information, ask clarifying questions.\n"

/-- The fixed user-safe apology returned on any remote-generation failure
(`backend.py` line 293). -/
def apologyMessage : String :=
  "I apologize, but I encountered an error processing your request. Please try again."

/-- Function `get_or_create_chat_session` (`backend.py` lines 246-261): a falsy
(`None`/empty) or unknown id is replaced by a fresh id under which a new empty
session is created and persisted; a known non-empty id passes through with the
store untouched. -/
def get_or_create_chat_session (sessions : Store Session) (chat_id : Option String)
    (fresh_id : String) (now : Timestamp) : String × Store Session :=
  match chat_id with
  | some cid =>
    if cid ≠ "" ∧ (Store.find sessions cid).isSome then (cid, sessions)
    else (fresh_id, Store.insert sessions fresh_id ⟨fresh_id, [], [], now, now⟩)
  | none => (fresh_id, Store.insert sessions fresh_id ⟨fresh_id, [], [], now, now⟩)

/-- Document-context assembly in `chat_endpoint` (`backend.py` lines 307-314):
contents of the session's associated documents that are present in the
documents store, joined by a blank line. -/
def build_context (sessions : Store Session) (docs : Store Document) (chat_id : String) : String :=
  match Store.find sessions chat_id with
  | some s =>
    if s.documents ≠ [] then
      String.intercalate "\n\n"
        (s.documents.filterMap (fun did => (Store.find docs did).map Document.content))
    else ""
  | none => ""

/-- Role label used when rendering history (`backend.py` line 281). -/
def role_label (m : Message) : String := if m.role = "user" then "User" else "Sera"

/-- History rendering loop (`backend.py` lines 280-282). -/
def render_history (msgs : List Message) : String :=
  String.join (msgs.map (fun m => role_label m ++ ": " ++ m.content ++ "\n"))

/-- The slice `messages[-10:]` (`backend.py` line 277). -/
def recent_messages (s : Session) : List Message :=
  s.messages.drop (s.messages.length - 10)

/-- Prompt assembly inside `generate_response` (`backend.py` lines 268-285). -/
def build_full_prompt (sessions : Store Session) (prompt chat_id context : String) : String :=
  let p1 := SYSTEM_PROMPT ++ "\n\n"
  let p2 := if context ≠ "" then p1 ++ "Document Context:\n" ++ context ++ "\n\n" else p1
  let p3 :=
    match Store.find sessions chat_id with
    | some s =>
      if recent_messages s ≠ [] then
        p2 ++ "Recent conversation:\n" ++ render_history (recent_messages s) ++ "\n"
      else p2
    | none => p2
  p3 ++ "User: " ++ prompt ++ "\nSera:"

/-- Function `generate_response` (`backend.py` lines 263-293): the remote call is one
attempt; any failure is caught and masked behind `apologyMessage`, so the
result is always a plain string, never an exception. -/
def generate_response (sessions : Store Session) (prompt chat_id context : String)
    (remote : String → Except String String) : String :=
  match remote (build_full_prompt sessions prompt chat_id context) with
  | .ok t => t
  | .error _ => apologyMessage

/-- Success shape of `POST /api/chat` (`backend.py` lines 133-136, 329-333). -/
structure ChatResponse where
  response : String
  chatId : String
  timestamp : Timestamp
deriving DecidableEq

/-- Function `chat_endpoint` (`backend.py` lines 295-333). Clock readings for the user
message, assistant message, `last_updated` and the response are separate
parameters, mirroring the separate `datetime.now()` calls. -/
def chat_endpoint (sessions0 : Store Session) (docs : Store Document)
    (message : String) (chatId : Option String) (fresh_id : String)
    (remote : String → Except String String)
    (now_gc now_u now_a now_lu now_resp : Timestamp) : ChatResponse × Store Session :=
  let r := get_or_create_chat_session sessions0 chatId fresh_id now_gc
  let chat_id := r.1
  let sessions1 := r.2
  let context := build_context sessions1 docs chat_id
  let response_text := generate_response sessions1 message chat_id context remote
  let sessions2 :=
    match Store.find sessions1 chat_id with
    | some s =>
      Store.insert sessions1 chat_id
        { s with
          messages := s.messages ++
            [⟨"user", message, now_u⟩, ⟨"assistant", response_text, now_a⟩],
          last_updated := now_lu }
    | none => sessions1
  (⟨response_text, chat_id, now_resp⟩, sessions2)

/-- Latin-1 decoding: every byte is the same-numbered code point, so the codec
is total (`bytes.decode(\x27latin-1\x27)` never raises). -/
def latin1_decode (bs : List Nat) : Option String :=
  some (String.mk (bs.map (fun b => Char.ofNat (b % 256))))

/-- The `.txt` decode chain (`backend.py` lines 366-372): UTF-8, then Latin-1,
then UTF-8 discarding invalid sequences. `utf8` (strict UTF-8 decode,
`none` = `UnicodeDecodeError`) and `uig` (`errors=\x27ignore\x27`) are the
external codecs. -/
def decode_txt (utf8 : List Nat → Option String) (uig : List Nat → String)
    (bs : List Nat) : String :=
  match utf8 bs with
  | some s => s
  | none =>
    match latin1_decode bs with
    | some s => s
    | none => uig bs

/-- Python `str.lower()` (ASCII case mapping, character by character), as
applied to the filename extension (`backend.py` line 345). -/
def str_lower (s : String) : String := String.mk (s.data.map Char.toLower)

/-- The list `allowed_types` (`backend.py` line 344). -/
def allowed_types : List String := [".pdf", ".docx", ".txt"]

/-- The limit `max_size` (`backend.py` line 354): 10 MiB. -/
def max_size : Nat := 10 * 1024 * 1024

/-- Extraction dispatch on the lower-cased extension (`backend.py` lines
361-372); the PDF and DOCX parsers are opaque external collaborators. -/
def extract_text (ext : String) (content : List Nat)
    (pdf_extract docx_extract : List Nat → String)
    (utf8 : List Nat → Option String) (uig : List Nat → String) : String :=
  if ext = ".pdf" then pdf_extract content
  else if ext = ".docx" then docx_extract content
  else decode_txt utf8 uig content

/-- Success shape of `POST /api/upload` (`backend.py` lines 412-420). -/
structure UploadResult where
  documentId : String
  chatId : String
  filename : String
  fileSize : Nat
  textLength : Nat
  analysis : String
deriving DecidableEq

/-- The initial-analysis prompt (`backend.py` line 407). -/
def analysis_prompt (filename : String) : String :=
  "I\x27ve uploaded a document titled \x27" ++ filename ++
    "\x27. Please provide a brief summary and key insights from this policy document."

/-- Function `upload_document` (`backend.py` lines 339-420). A 400 rejection raises
before any store mutation, so the mutated stores appear only in the `ok`
payload. -/
def upload_document (docs0 : Store Document) (sessions0 : Store Session)
    (filename file_extension_raw : String) (content : List Nat)
    (pdf_extract docx_extract : List Nat → String)
    (utf8 : List Nat → Option String) (uig : List Nat → String)
    (chatId : Option String) (doc_id fresh_id : String)
    (remote : String → Except String String)
    (now_up now_gc now_lu : Timestamp) :
    Except Nat (UploadResult × Store Document × Store Session) :=
  let ext := str_lower file_extension_raw
  if ext ∉ allowed_types then .error 400
  else if content.length > max_size then .error 400
  else
    let text := extract_text ext content pdf_extract docx_extract utf8 uig
    if text = "" ∨ text.trim = "" then .error 400
    else
      let docs1 := Store.insert docs0 doc_id
        ⟨doc_id, filename, text, now_up, ext, content.length, text.length⟩
      let r := get_or_create_chat_session sessions0 chatId fresh_id now_gc
      let chat_id := r.1
      let sessions1 := r.2
      let sessions2 :=
        match Store.find sessions1 chat_id with
        | some s =>
          Store.insert sessions1 chat_id
            { s with documents := s.documents ++ [doc_id], last_updated := now_lu }
        | none => sessions1
      let analysis := generate_response sessions2 (analysis_prompt filename) chat_id text remote
      .ok (⟨doc_id, chat_id, filename, content.length, text.length, analysis⟩, docs1, sessions2)

/-- Per-session metadata returned by `GET /api/chats` (`backend.py` lines
463-479). `last_message_preview = none` stands for the key being absent (no
messages) or `None` (no user message). -/
structure ChatMetadata where
  id : String
  created_at : Timestamp
  last_updated : Timestamp
  message_count : Nat
  document_count : Nat
  last_message_preview : Option String
deriving DecidableEq

/-- Preview truncation (`backend.py` line 477): first 100 characters plus an
ellipsis when the content is longer than 100 characters. -/
def preview_of (content : String) : String :=
  if content.length > 100 then content.take 100 ++ "..." else content

/-- The reversed scan for the most recent user message (`backend.py` lines
474-478). -/
def last_user_preview (msgs : List Message) : Option String :=
  (msgs.reverse.find? (fun m => m.role == "user")).map (fun m => preview_of m.content)

/-- Metadata of one session (`backend.py` lines 464-479). -/
def session_metadata (s : Session) : ChatMetadata :=
  { id := s.id
    created_at := s.created_at
    last_updated := s.last_updated
    message_count := s.messages.length
    document_count := s.documents.length
    last_message_preview := if s.messages = [] then none else last_user_preview s.messages }

/-- Function `get_all_chats` (`backend.py` lines 456-486): metadata of every session,
stably sorted by `last_updated`, most recent first (`sort(reverse=True)`). -/
def get_all_chats (sessions : Store Session) : List ChatMetadata :=
  (sessions.map (fun p => session_metadata p.2)).mergeSort
    (fun a b => decide (b.last_updated ≤ a.last_updated))

/-- Function `delete_chat` (`backend.py` lines 488-507): a present id removes the
session and pops every referenced document id; an absent id yields 404 with
no mutation (the error carries no stores). -/
def delete_chat (sessions : Store Session) (docs : Store Document) (chat_id : String) :
    Except Nat (Store Session × Store Document) :=
  match Store.find sessions chat_id with
  | some s =>
    let docs1 := s.documents.foldl (fun d did => Store.erase d did) docs
    .ok (Store.erase sessions chat_id, docs1)
  | none => .error 404

/-- JSON trees: the values `json.dump` writes and `json.load` reads
(`backend.py` lines 60-96). Textual rendering/parsing is the json library's
side of the boundary and is modelled as the identity on trees. -/
inductive Json where
  | null : Json
  | str : String → Json
  | num : Nat → Json
  | arr : List Json → Json
  | obj : List (String × Json) → Json

def encodeMessage (m : Message) : Json :=
  .obj [("role", .str m.role), ("content", .str m.content), ("timestamp", .num m.timestamp)]

def decodeMessage : Json → Option Message
  | .obj [("role", .str r), ("content", .str c), ("timestamp", .num t)] => some ⟨r, c, t⟩
  | _ => none

def decodeString : Json → Option String
  | .str s => some s
  | _ => none

def encodeSession (s : Session) : Json :=
  .obj [("id", .str s.id),
        ("messages", .arr (s.messages.map encodeMessage)),
        ("documents", .arr (s.documents.map Json.str)),
        ("created_at", .num s.created_at),
        ("last_updated", .num s.last_updated)]

def decodeSession : Json → Option Session
  | .obj [("id", .str i),
          ("messages", .arr ms),
          ("documents", .arr ds),
          ("created_at", .num c),
          ("last_updated", .num l)] =>
    match ms.mapM decodeMessage, ds.mapM decodeString with
    | some msgs, some docs => some ⟨i, msgs, docs, c, l⟩
    | _, _ => none
  | _ => none

def encodeDocument (d : Document) : Json :=
  .obj [("id", .str d.id),
        ("filename", .str d.filename),
        ("content", .str d.content),
        ("uploaded_at", .num d.uploaded_at),
        ("file_type", .str d.file_type),
        ("file_size", .num d.file_size),
        ("text_length", .num d.text_length)]

def decodeDocument : Json → Option Document
  | .obj [("id", .str i),
          ("filename", .str f),
          ("content", .str c),
          ("uploaded_at", .num u),
          ("file_type", .str t),
          ("file_size", .num s),
          ("text_length", .num n)] => some ⟨i, f, c, u, t, s, n⟩
  | _ => none

def encodeStore {α : Type} (enc : α → Json) (m : Store α) : Json :=
  .obj (m.map (fun p => (p.1, enc p.2)))

def decodeStore {α : Type} (dec : Json → Option α) : Json → Option (Store α)
  | .obj kvs => kvs.mapM (fun p => (dec p.2).map (fun v => (p.1, v)))
  | _ => none

/-- Function `save_chat_sessions` (`backend.py` lines 71-77): the JSON value written to
disk. -/
def save_chat_sessions (m : Store Session) : Option Json :=
  some (encodeStore encodeSession m)

/-- Function `load_chat_sessions` (`backend.py` lines 60-69): a missing file or a parse
failure yields the empty mapping. -/
def load_chat_sessions (disk : Option Json) : Store Session :=
  match disk with
  | some j => (decodeStore decodeSession j).getD []
  | none => []

/-- Function `save_uploaded_documents` (`backend.py` lines 90-96). -/
def save_uploaded_documents (m : Store Document) : Option Json :=
  some (encodeStore encodeDocument m)

/-- Function `load_uploaded_documents` (`backend.py` lines 79-88). -/
def load_uploaded_documents (disk : Option Json) : Store Document :=
  match disk with
  | some j => (decodeStore decodeDocument j).getD []
  | none => []

/-! ### Store lemmas -/

theorem Store.find_insert {α : Type} (d : Store α) (k k' : String) (v : α) :
    Store.find (Store.insert d k v) k' = if k' = k then some v else Store.find d k' := by
  induction d with
  | nil =>
    by_cases h : k' = k
    · subst h; simp [Store.insert, Store.find]
    · simp [Store.insert, Store.find, h, Ne.symm h]
  | cons p t ih =>
    simp only [Store.insert]
    by_cases hp : p.1 = k
    · rw [if_pos hp]
      by_cases h : k' = k
      · subst h; simp [Store.find]
      · have hpk : p.1 ≠ k' := by rw [hp]; exact Ne.symm h
        simp [Store.find, h, Ne.symm h, hpk]
    · rw [if_neg hp]
      by_cases hpk : p.1 = k'
      · have h : k' ≠ k := fun hh => hp (hpk.trans hh)
        simp [Store.find, hpk, h]
      · simp [Store.find, hpk, ih]

theorem Store.find_erase {α : Type} (d : Store α) (k k' : String) :
    Store.find (Store.erase d k) k' = if k' = k then none else Store.find d k' := by
  induction d with
  | nil => by_cases h : k' = k <;> simp [Store.erase, Store.find, h]
  | cons p t ih =>
    simp only [Store.erase, List.filter_cons] at ih ⊢
    by_cases hp : p.1 = k
    · have hb : (!(p.1 == k)) = false := by simp [hp]
      rw [hb, if_neg (by simp), ih]
      by_cases h : k' = k
      · simp [h]
      · have hpk : p.1 ≠ k' := by rw [hp]; exact Ne.symm h
        simp [Store.find, h, hpk]
    · have hb : (!(p.1 == k)) = true := by simp [hp]
      rw [hb, if_pos rfl]
      by_cases hpk : p.1 = k'
      · have h : k' ≠ k := fun hh => hp (hpk.trans hh)
        simp [Store.find, hpk, h]
      · simp [Store.find, hpk, ih]

theorem Store.find_foldl_erase_of_none {α : Type} (l : List String) (d : Store α) (k : String)
    (h : Store.find d k = none) :
    Store.find (l.foldl (fun d did => Store.erase d did) d) k = none := by
  induction l generalizing d with
  | nil => simpa using h
  | cons x xs ih =>
    simp only [List.foldl_cons]
    apply ih
    rw [Store.find_erase]
    by_cases hk : k = x <;> simp [hk, h]

theorem Store.find_foldl_erase_of_mem {α : Type} (l : List String) (d : Store α) (k : String)
    (h : k ∈ l) :
    Store.find (l.foldl (fun d did => Store.erase d did) d) k = none := by
  induction l generalizing d with
  | nil => cases h
  | cons x xs ih =>
    simp only [List.foldl_cons]
    rcases List.mem_cons.mp h with h | h
    · subst h
      exact Store.find_foldl_erase_of_none xs _ k (by rw [Store.find_erase]; simp)
    · exact ih _ h

theorem Store.find_foldl_erase_of_not_mem {α : Type} (l : List String) (d : Store α) (k : String)
    (h : k ∉ l) :
    Store.find (l.foldl (fun d did => Store.erase d did) d) k = Store.find d k := by
  induction l generalizing d with
  | nil => rfl
  | cons x xs ih =>
    simp only [List.foldl_cons]
    have hx : k ≠ x := fun hk => h (hk ▸ List.mem_cons_self x xs)
    rw [ih _ (fun hk => h (List.mem_cons_of_mem x hk)), Store.find_erase, if_neg hx]

/-! ### Encode/decode round-trip lemmas -/

theorem mapM_decode_encode {α β : Type} (enc : α → β) (dec : β → Option α)
    (h : ∀ a, dec (enc a) = some a) : ∀ l : List α, (l.map enc).mapM dec = some l := by
  intro l
  induction l with
  | nil => rfl
  | cons a t ih => rw [List.map_cons, List.mapM_cons, h, ih]; rfl

theorem decodeMessage_encodeMessage (m : Message) : decodeMessage (encodeMessage m) = some m :=
  rfl

theorem decodeString_str (s : String) : decodeString (Json.str s) = some s := rfl

theorem decodeDocument_encodeDocument (d : Document) :
    decodeDocument (encodeDocument d) = some d := rfl

theorem decodeSession_encodeSession (s : Session) :
    decodeSession (encodeSession s) = some s := by
  simp only [encodeSession, decodeSession]
  rw [mapM_decode_encode _ _ decodeMessage_encodeMessage,
    mapM_decode_encode _ _ decodeString_str]

theorem decodeStore_encodeStore {α : Type} (enc : α → Json) (dec : Json → Option α)
    (h : ∀ a, dec (enc a) = some a) (m : Store α) :
    decodeStore dec (encodeStore enc m) = some m := by
  simp only [encodeStore, decodeStore]
  exact mapM_decode_encode _ _ (fun p => by rw [h p.2]; rfl) m

/-! ### Concrete fixtures used by witnesses and counterexamples -/

def wSession : Session := ⟨"s1", [⟨"user", "hi", 1⟩], ["d1"], 0, 1⟩

def wSessions : Store Session := [("s1", wSession)]

def wDoc : Document := ⟨"d1", "f.txt", "hello", 0, ".txt", 5, 5⟩

def wDocs : Store Document := [("d1", wDoc)]

/-! ### Claims -/

/-- C1 counterexample: the claim says get-or-create returns a caller-supplied
id unchanged even when no session with that id exists, but on an unknown id
the code generates a fresh id and returns that instead: with an empty sessions
store, supplying "s-unknown" yields the freshly generated id, not
"s-unknown". -/
theorem get_or_create_unknown_id_cex :
    Store.find ([] : Store Session) "s-unknown" = none ∧
    (get_or_create_chat_session ([] : Store Session) (some "s-unknown") "fresh-id" 0).1
      = "fresh-id" ∧
    "fresh-id" ≠ "s-unknown" := by
  refine ⟨rfl, by decide, by decide⟩

/-- C1 amended: get-or-create returns the given id unchanged (with the store
untouched) only when the id is non-empty and present in the sessions mapping;
an id absent from the mapping is replaced by a freshly generated id under
which a new empty session is created and persisted. -/
theorem get_or_create_amended (sessions : Store Session) (cid fresh_id : String)
    (now : Timestamp) :
    (cid ≠ "" → (Store.find sessions cid).isSome →
      get_or_create_chat_session sessions (some cid) fresh_id now = (cid, sessions)) ∧
    (Store.find sessions cid = none →
      get_or_create_chat_session sessions (some cid) fresh_id now =
        (fresh_id, Store.insert sessions fresh_id ⟨fresh_id, [], [], now, now⟩)) := by
  constructor
  · intro h1 h2
    simp [get_or_create_chat_session, h1, h2]
  · intro h
    simp [get_or_create_chat_session, h]

/-- C1 amended, witness at a concrete store. -/
theorem get_or_create_amended_witness :
    ("s1" ≠ "" ∧ (Store.find wSessions "s1").isSome) ∧
    get_or_create_chat_session wSessions (some "s1") "fresh-id" 7 = ("s1", wSessions) :=
  ⟨by decide, (get_or_create_amended wSessions "s1" "fresh-id" 7).1 (by decide) (by decide)⟩

/-- C4: on any failure of the remote model call, generation returns the fixed
apology string instead of propagating the error; `generate_response` has
return type `String`, so the caller always receives a usable reply and never
an exception. -/
theorem generate_response_masks_failure (sessions : Store Session)
    (prompt chat_id context : String) (remote : String → Except String String) (e : String)
    (h : remote (build_full_prompt sessions prompt chat_id context) = .error e) :
    generate_response sessions prompt chat_id context remote = apologyMessage := by
  simp [generate_response, h]

/-- C4 witness: a remote call that always fails yields the apology string. -/
theorem generate_response_masks_failure_witness :
    ((fun _ : String => (Except.error "boom" : Except String String))
        (build_full_prompt [] "q" "c1" "") = Except.error "boom") ∧
    generate_response [] "q" "c1" "" (fun _ => Except.error "boom") = apologyMessage :=
  ⟨rfl, generate_response_masks_failure [] "q" "c1" "" (fun _ => Except.error "boom") "boom" rfl⟩

/-- C5: deleting a present session id removes that session and every document
id it referenced (and nothing else) from the two mappings; an absent id yields
a 404 error, and on the error path the operation performs no mutation (the
error carries no stores). -/
theorem delete_chat_spec (sessions : Store Session) (docs : Store Document) (chat_id : String) :
    (∀ s, Store.find sessions chat_id = some s →
      ∃ sessions2 docs2,
        delete_chat sessions docs chat_id = .ok (sessions2, docs2) ∧
        Store.find sessions2 chat_id = none ∧
        (∀ k, k ≠ chat_id → Store.find sessions2 k = Store.find sessions k) ∧
        (∀ did, did ∈ s.documents → Store.find docs2 did = none) ∧
        (∀ did, did ∉ s.documents → Store.find docs2 did = Store.find docs did)) ∧
    (Store.find sessions chat_id = none → delete_chat sessions docs chat_id = .error 404) := by
  constructor
  · intro s hs
    refine ⟨Store.erase sessions chat_id,
      s.documents.foldl (fun d did => Store.erase d did) docs, ?_, ?_, ?_, ?_, ?_⟩
    · simp [delete_chat, hs]
    · rw [Store.find_erase]; simp
    · intro k hk
      rw [Store.find_erase, if_neg hk]
    · intro did hd
      exact Store.find_foldl_erase_of_mem _ _ _ hd
    · intro did hd
      exact Store.find_foldl_erase_of_not_mem _ _ _ hd
  · intro h
    simp [delete_chat, h]

/-- C5 witness: deleting the only session of a concrete store. -/
theorem delete_chat_spec_witness :
    (Store.find wSessions "s1" = some wSession) ∧
    (∃ sessions2 docs2,
        delete_chat wSessions wDocs "s1" = .ok (sessions2, docs2) ∧
        Store.find sessions2 "s1" = none ∧
        (∀ k, k ≠ "s1" → Store.find sessions2 k = Store.find wSessions k) ∧
        (∀ did, did ∈ wSession.documents → Store.find docs2 did = none) ∧
        (∀ did, did ∉ wSession.documents → Store.find docs2 did = Store.find wDocs did)) :=
  ⟨rfl, (delete_chat_spec wSessions wDocs "s1").1 wSession rfl⟩

/-- C9: saving a sessions collection or a documents collection and then
loading it yields the value most recently saved (serialization modelled at
the JSON-tree level; absence of an intervening writer and of I/O failure is
built into passing the saved value straight to the loader). -/
theorem save_load_round_trip (m : Store Session) (d : Store Document) :
    load_chat_sessions (save_chat_sessions m) = m ∧
    load_uploaded_documents (save_uploaded_documents d) = d := by
  constructor
  · simp [load_chat_sessions, save_chat_sessions,
      decodeStore_encodeStore _ _ decodeSession_encodeSession]
  · simp [load_uploaded_documents, save_uploaded_documents,
      decodeStore_encodeStore _ _ decodeDocument_encodeDocument]

/-- Helper: the full effect of one chat turn when the supplied id is a
non-empty key of the sessions store. -/
theorem chat_endpoint_eq (sessions0 : Store Session) (docs : Store Document)
    (message cid fresh_id : String) (remote : String → Except String String)
    (now_gc now_u now_a now_lu now_resp : Timestamp) (s : Session)
    (hcid : cid ≠ "") (hs : Store.find sessions0 cid = some s) :
    chat_endpoint sessions0 docs message (some cid) fresh_id remote
        now_gc now_u now_a now_lu now_resp =
      (⟨generate_response sessions0 message cid (build_context sessions0 docs cid) remote,
        cid, now_resp⟩,
       Store.insert sessions0 cid
         { s with
           messages := s.messages ++
             [⟨"user", message, now_u⟩,
              ⟨"assistant",
               generate_response sessions0 message cid (build_context sessions0 docs cid) remote,
               now_a⟩],
           last_updated := now_lu }) := by
  have hg : get_or_create_chat_session sessions0 (some cid) fresh_id now_gc = (cid, sessions0) := by
    simp [get_or_create_chat_session, hcid, hs]
  simp [chat_endpoint, hg, hs]

/-- C6: a chat turn on a session present in the sessions mapping appends
exactly two messages — user with the submitted text, then assistant with the
generated reply — leaves the earlier messages unchanged (the new list is the
old list plus two) and every other session untouched, and sets `last_updated`
to the turn's clock reading, which is ≥ the previous value under the
wall-clock monotonicity hypothesis `hclock`. -/
theorem chat_turn_appends (sessions0 : Store Session) (docs : Store Document)
    (message cid fresh_id : String) (remote : String → Except String String)
    (now_gc now_u now_a now_lu now_resp : Timestamp) (s : Session)
    (hcid : cid ≠ "") (hs : Store.find sessions0 cid = some s)
    (hclock : s.last_updated ≤ now_lu) :
    Store.find (chat_endpoint sessions0 docs message (some cid) fresh_id remote
        now_gc now_u now_a now_lu now_resp).2 cid =
      some { s with
        messages := s.messages ++
          [⟨"user", message, now_u⟩,
           ⟨"assistant",
            generate_response sessions0 message cid (build_context sessions0 docs cid) remote,
            now_a⟩],
        last_updated := now_lu } ∧
    (∀ k, k ≠ cid →
      Store.find (chat_endpoint sessions0 docs message (some cid) fresh_id remote
          now_gc now_u now_a now_lu now_resp).2 k = Store.find sessions0 k) ∧
    (chat_endpoint sessions0 docs message (some cid) fresh_id remote
        now_gc now_u now_a now_lu now_resp).1.response =
      generate_response sessions0 message cid (build_context sessions0 docs cid) remote ∧
    s.last_updated ≤ now_lu := by
  rw [chat_endpoint_eq sessions0 docs message cid fresh_id remote
    now_gc now_u now_a now_lu now_resp s hcid hs]
  refine ⟨?_, ?_, rfl, hclock⟩
  · rw [Store.find_insert]; simp
  · intro k hk
    rw [Store.find_insert, if_neg hk]

/-- C6 witness: one turn on a concrete one-session store. -/
theorem chat_turn_appends_witness :
    ("s1" ≠ "" ∧ Store.find wSessions "s1" = some wSession ∧ wSession.last_updated ≤ 5) ∧
    (Store.find (chat_endpoint wSessions wDocs "hello" (some "s1") "f"
        (fun _ => Except.ok "fine") 2 3 4 5 6).2 "s1" =
      some { wSession with
        messages := wSession.messages ++
          [⟨"user", "hello", 3⟩,
           ⟨"assistant",
            generate_response wSessions "hello" "s1" (build_context wSessions wDocs "s1")
              (fun _ => Except.ok "fine"),
            4⟩],
        last_updated := 5 } ∧
    (∀ k, k ≠ "s1" →
      Store.find (chat_endpoint wSessions wDocs "hello" (some "s1") "f"
          (fun _ => Except.ok "fine") 2 3 4 5 6).2 k = Store.find wSessions k) ∧
    (chat_endpoint wSessions wDocs "hello" (some "s1") "f"
        (fun _ => Except.ok "fine") 2 3 4 5 6).1.response =
      generate_response wSessions "hello" "s1" (build_context wSessions wDocs "s1")
        (fun _ => Except.ok "fine") ∧
    wSession.last_updated ≤ 5) :=
  ⟨⟨by decide, rfl, by decide⟩,
   chat_turn_appends wSessions wDocs "hello" "s1" "f" (fun _ => Except.ok "fine")
     2 3 4 5 6 wSession (by decide) rfl (by decide)⟩

/-- C10: when the remote call fails during a chat turn, the response is a
success carrying the apology string, the whole run (response and resulting
store) is equal to a run whose remote call succeeded with exactly the apology
text, and the apology is persisted as the assistant message of the turn. -/
theorem failure_turn_indistinguishable (sessions0 : Store Session) (docs : Store Document)
    (message cid fresh_id e : String) (now_gc now_u now_a now_lu now_resp : Timestamp)
    (s : Session) (hcid : cid ≠ "") (hs : Store.find sessions0 cid = some s) :
    (chat_endpoint sessions0 docs message (some cid) fresh_id (fun _ => Except.error e)
        now_gc now_u now_a now_lu now_resp).1.response = apologyMessage ∧
    chat_endpoint sessions0 docs message (some cid) fresh_id (fun _ => Except.error e)
        now_gc now_u now_a now_lu now_resp =
      chat_endpoint sessions0 docs message (some cid) fresh_id
        (fun _ => Except.ok apologyMessage) now_gc now_u now_a now_lu now_resp ∧
    Store.find (chat_endpoint sessions0 docs message (some cid) fresh_id
        (fun _ => Except.error e) now_gc now_u now_a now_lu now_resp).2 cid =
      some { s with
        messages := s.messages ++
          [⟨"user", message, now_u⟩, ⟨"assistant", apologyMessage, now_a⟩],
        last_updated := now_lu } := by
  have hge : generate_response sessions0 message cid (build_context sessions0 docs cid)
      (fun _ => Except.error e) = apologyMessage := rfl
  have hgo : generate_response sessions0 message cid (build_context sessions0 docs cid)
      (fun _ => Except.ok apologyMessage) = apologyMessage := rfl
  rw [chat_endpoint_eq sessions0 docs message cid fresh_id (fun _ => Except.error e)
      now_gc now_u now_a now_lu now_resp s hcid hs,
    chat_endpoint_eq sessions0 docs message cid fresh_id (fun _ => Except.ok apologyMessage)
      now_gc now_u now_a now_lu now_resp s hcid hs, hge, hgo]
  refine ⟨rfl, rfl, ?_⟩
  rw [Store.find_insert]
  simp

/-- C10 witness: a failing remote call on a concrete one-session store. -/
theorem failure_turn_indistinguishable_witness :
    ("s1" ≠ "" ∧ Store.find wSessions "s1" = some wSession) ∧
    ((chat_endpoint wSessions wDocs "hello" (some "s1") "f" (fun _ => Except.error "boom")
        2 3 4 5 6).1.response = apologyMessage ∧
    chat_endpoint wSessions wDocs "hello" (some "s1") "f" (fun _ => Except.error "boom")
        2 3 4 5 6 =
      chat_endpoint wSessions wDocs "hello" (some "s1") "f"
        (fun _ => Except.ok apologyMessage) 2 3 4 5 6 ∧
    Store.find (chat_endpoint wSessions wDocs "hello" (some "s1") "f"
        (fun _ => Except.error "boom") 2 3 4 5 6).2 "s1" =
      some { wSession with
        messages := wSession.messages ++
          [⟨"user", "hello", 3⟩, ⟨"assistant", apologyMessage, 4⟩],
        last_updated := 5 }) :=
  ⟨⟨by decide, rfl⟩,
   failure_turn_indistinguishable wSessions wDocs "hello" "s1" "f" "boom"
     2 3 4 5 6 wSession (by decide) rfl⟩

/-- C8: the `.txt` decode chain tries strict UTF-8 first and returns its
output on success; on UTF-8 failure it returns the Latin-1 decode, which is
total (every byte is a code point), so the third fallback (`uig`, UTF-8 with
invalid sequences discarded) is never consulted and the chain never reports
failure — its result is independent of `uig` and always a plain string. -/
theorem decode_txt_chain (utf8 : List Nat → Option String) (uig uig2 : List Nat → String)
    (bs : List Nat) :
    decode_txt utf8 uig bs =
      (match utf8 bs with
       | some s => s
       | none => String.mk (bs.map (fun b => Char.ofNat (b % 256)))) ∧
    decode_txt utf8 uig bs = decode_txt utf8 uig2 bs := by
  unfold decode_txt latin1_decode
  cases utf8 bs <;> exact ⟨rfl, rfl⟩

/-- C3: an upload whose (lower-cased) filename extension is outside
{.pdf, .docx, .txt}, or whose byte size exceeds 10 MiB, or whose extracted
text is empty or whitespace-only, is rejected with status 400; the rejection
happens before any store mutation, so no document record is added (the
mutated stores exist only in the `ok` payload). -/
theorem upload_rejects (docs0 : Store Document) (sessions0 : Store Session)
    (filename file_extension_raw : String) (content : List Nat)
    (pdf_extract docx_extract : List Nat → String)
    (utf8 : List Nat → Option String) (uig : List Nat → String)
    (chatId : Option String) (doc_id fresh_id : String)
    (remote : String → Except String String) (now_up now_gc now_lu : Timestamp)
    (h : str_lower file_extension_raw ∉ allowed_types ∨
         content.length > max_size ∨
         (extract_text (str_lower file_extension_raw) content
            pdf_extract docx_extract utf8 uig).trim = "") :
    upload_document docs0 sessions0 filename file_extension_raw content
        pdf_extract docx_extract utf8 uig chatId doc_id fresh_id remote
        now_up now_gc now_lu = .error 400 := by
  simp only [upload_document]
  by_cases h1 : str_lower file_extension_raw ∉ allowed_types
  · rw [if_pos h1]
  · rw [if_neg h1]
    by_cases h2 : content.length > max_size
    · rw [if_pos h2]
    · rw [if_neg h2]
      have h3 : (extract_text (str_lower file_extension_raw) content
          pdf_extract docx_extract utf8 uig).trim = "" := by
        rcases h with h | h | h
        · exact absurd h h1
        · exact absurd h h2
        · exact h
      rw [if_pos (Or.inr h3)]

/-- C3 witness: an `.exe` upload is rejected with 400. -/
theorem upload_rejects_witness :
    (str_lower ".exe" ∉ allowed_types ∨
      ([65] : List Nat).length > max_size ∨
      (extract_text (str_lower ".exe") [65] (fun _ => "") (fun _ => "")
        (fun _ => none) (fun _ => "")).trim = "") ∧
    upload_document [] [] "a.exe" ".exe" [65] (fun _ => "") (fun _ => "")
        (fun _ => none) (fun _ => "") none "d" "f" (fun _ => Except.ok "x") 0 0 0 =
      .error 400 :=
  ⟨Or.inl (by decide),
   upload_rejects [] [] "a.exe" ".exe" [65] (fun _ => "") (fun _ => "")
     (fun _ => none) (fun _ => "") none "d" "f" (fun _ => Except.ok "x") 0 0 0
     (Or.inl (by decide))⟩

/-- Session fixture for the C7 counterexample: last message is the assistant
reply "world", most recent user message is "hello". -/
def cSession : Session :=
  ⟨"c1", [⟨"user", "hello", 1⟩, ⟨"assistant", "world", 2⟩], [], 0, 2⟩

def cStore : Store Session := [("c1", cSession)]

/-- C7 counterexample: the claim says every listed session carries a preview
of its last message truncated to 100 characters, but the code previews the
most recent *user* message: for a session whose last message is the assistant
reply "world", the returned preview is "hello", not (any truncation of)
"world". -/
theorem get_all_chats_cex :
    cSession.messages.getLast? = some ⟨"assistant", "world", 2⟩ ∧
    preview_of "world" = "world" ∧
    (get_all_chats cStore).map (fun m => m.last_message_preview) = [some "hello"] ∧
    (some "hello" : Option String) ≠ some "world" := by
  refine ⟨rfl, rfl, ?_, by decide⟩
  unfold get_all_chats
  rw [show cStore.map (fun p => session_metadata p.2) = [session_metadata cSession] from rfl,
    List.mergeSort_singleton]
  rfl

/-- C7 amended: the listing is sorted by `last_updated`, most recently updated
first, and is a permutation of the per-session metadata; each session's
preview is of the most recent *user* message (absent when the session has no
messages), truncated to its first 100 characters with "..." appended when the
content exceeds 100 characters. -/
theorem get_all_chats_amended (sessions : Store Session) :
    List.Pairwise (fun a b : ChatMetadata => b.last_updated ≤ a.last_updated)
      (get_all_chats sessions) ∧
    (get_all_chats sessions).Perm (sessions.map (fun p => session_metadata p.2)) ∧
    (∀ s : Session,
      (session_metadata s).last_message_preview =
        if s.messages = [] then none
        else (s.messages.reverse.find? (fun m => m.role == "user")).map
          (fun m =>
            if m.content.length > 100 then m.content.take 100 ++ "..." else m.content)) := by
  refine ⟨?_, ?_, fun s => rfl⟩
  · have hs := @List.sorted_mergeSort ChatMetadata
      (fun a b => decide (b.last_updated ≤ a.last_updated))
      (fun a b c hab hbc =>
        decide_eq_true (Nat.le_trans (of_decide_eq_true hbc) (of_decide_eq_true hab)))
      (fun a b => by
        rcases Nat.le_total b.last_updated a.last_updated with h | h
        · simp [decide_eq_true h]
        · simp [decide_eq_true h])
      (sessions.map (fun p => session_metadata p.2))
    exact hs.imp (fun h => of_decide_eq_true h)
  · unfold get_all_chats
    exact List.mergeSort_perm _ _

/-! ### String helper lemmas for the prompt-assembly claim -/

theorem string_length_pos_of_ne (s : String) (h : s ≠ "") : 0 < s.length := by
  cases s with
  | mk data =>
    cases data with
    | nil => exact absurd rfl h
    | cons c cs => simp [String.length]

theorem intercalate_go_length (sep : String) (l : List String) (acc : String) :
    acc.length ≤ (String.intercalate.go acc sep l).length := by
  induction l generalizing acc with
  | nil => exact Nat.le_refl _
  | cons a as ih =>
    have he : String.intercalate.go acc sep (a :: as) =
        String.intercalate.go (acc ++ sep ++ a) sep as := rfl
    rw [he]
    refine Nat.le_trans ?_ (ih (acc ++ sep ++ a))
    rw [String.length_append, String.length_append]
    omega

theorem intercalate_ne_empty (l : List String) (hne : l ≠ [])
    (hall : ∀ t ∈ l, t ≠ "") : String.intercalate "\n\n" l ≠ "" := by
  cases l with
  | nil => exact absurd rfl hne
  | cons x xs =>
    have hx : 0 < x.length := string_length_pos_of_ne x (hall x (List.mem_cons_self x xs))
    have hlen : 0 < (String.intercalate "\n\n" (x :: xs)).length := by
      have he : String.intercalate "\n\n" (x :: xs) = String.intercalate.go x "\n\n" xs := rfl
      rw [he]
      exact Nat.lt_of_lt_of_le hx (intercalate_go_length _ _ _)
    intro hc
    rw [hc] at hlen
    simp [String.length] at hlen

/-- The document texts gathered for a session (`backend.py` lines 310-313). -/
def gathered_texts (docs : Store Document) (s : Session) : List String :=
  s.documents.filterMap (fun did => (Store.find docs did).map Document.content)

theorem build_context_eq (sessions : Store Session) (docs : Store Document)
    (chat_id : String) (s : Session) (hs : Store.find sessions chat_id = some s) :
    build_context sessions docs chat_id =
      if s.documents ≠ [] then String.intercalate "\n\n" (gathered_texts docs s) else "" := by
  simp [build_context, gathered_texts, hs]

/-- C2: for a session present in the store, the assembled prompt contains at
most the most recent 10 messages of its history (a suffix of the stored list,
hence in chronological order), rendered as role-labelled lines; the
document-context section is present exactly when the session has at least one
associated document, present in the documents store, with non-empty text
(under the data-model invariant `hinv` that stored documents have non-empty
text), and when present it is the documents' texts joined verbatim by a
blank-line separator. -/
theorem prompt_window_and_context (sessions : Store Session) (docs : Store Document)
    (chat_id prompt : String) (s : Session)
    (hs : Store.find sessions chat_id = some s)
    (hinv : ∀ did d, Store.find docs did = some d → d.content ≠ "") :
    (recent_messages s).length ≤ 10 ∧
    recent_messages s <:+ s.messages ∧
    build_full_prompt sessions prompt chat_id (build_context sessions docs chat_id) =
      SYSTEM_PROMPT ++ "\n\n" ++
      (if build_context sessions docs chat_id ≠ "" then
        "Document Context:\n" ++ build_context sessions docs chat_id ++ "\n\n"
       else "") ++
      (if recent_messages s ≠ [] then
        "Recent conversation:\n" ++ render_history (recent_messages s) ++ "\n"
       else "") ++
      "User: " ++ prompt ++ "\nSera:" ∧
    (build_context sessions docs chat_id ≠ "" ↔
      ∃ did ∈ s.documents, ∃ d, Store.find docs did = some d ∧ d.content ≠ "") ∧
    (build_context sessions docs chat_id ≠ "" →
      build_context sessions docs chat_id =
        String.intercalate "\n\n" (gathered_texts docs s)) := by
  have hall : ∀ t ∈ gathered_texts docs s, t ≠ "" := by
    intro t ht
    obtain ⟨did2, hdid2, hft⟩ := List.mem_filterMap.mp ht
    cases hf2 : Store.find docs did2 with
    | none => rw [hf2] at hft; cases hft
    | some d2 =>
      rw [hf2] at hft
      have : d2.content = t := Option.some.inj hft
      exact this ▸ hinv did2 d2 hf2
  refine ⟨?_, List.drop_suffix _ _, ?_, ?_, ?_⟩
  · simp only [recent_messages, List.length_drop]
    omega
  · simp only [build_full_prompt, hs]
    split_ifs <;>
      simp only [String.append_assoc, String.append_empty, String.empty_append]
  · constructor
    · intro hctx
      rw [build_context_eq sessions docs chat_id s hs] at hctx
      by_cases hd : s.documents = []
      · rw [if_neg (by simpa using hd)] at hctx
        exact absurd rfl hctx
      · rw [if_pos hd] at hctx
        cases hts : gathered_texts docs s with
        | nil => rw [hts] at hctx; exact absurd rfl hctx
        | cons t ts =>
          have htmem : t ∈ gathered_texts docs s := by
            rw [hts]; exact List.mem_cons_self t ts
          obtain ⟨did, hdid, hft⟩ := List.mem_filterMap.mp htmem
          cases hf : Store.find docs did with
          | none => rw [hf] at hft; cases hft
          | some d => exact ⟨did, hdid, d, hf, hinv did d hf⟩
    · rintro ⟨did, hdid, d, hfind, -⟩
      have hd : s.documents ≠ [] := by
        intro h
        rw [h] at hdid
        cases hdid
      have htmem : d.content ∈ gathered_texts docs s :=
        List.mem_filterMap.mpr ⟨did, hdid, by rw [hfind]; rfl⟩
      have hne : gathered_texts docs s ≠ [] := by
        intro h
        rw [h] at htmem
        cases htmem
      rw [build_context_eq sessions docs chat_id s hs, if_pos hd]
      exact intercalate_ne_empty _ hne hall
  · intro hctx
    rw [build_context_eq sessions docs chat_id s hs]
    by_cases hd : s.documents = []
    · rw [build_context_eq sessions docs chat_id s hs, if_neg (by simpa using hd)] at hctx
      exact absurd rfl hctx
    · rw [if_pos hd]

/-- The concrete documents fixture satisfies the data-model invariant: every
stored document has non-empty text. -/
theorem wDocs_nonempty_content (did : String) (d : Document)
    (h : Store.find wDocs did = some d) : d.content ≠ "" := by
  simp only [wDocs, Store.find] at h
  by_cases hd : "d1" = did
  · rw [if_pos hd] at h
    have hwd : wDoc = d := Option.some.inj h
    subst hwd
    decide
  · rw [if_neg hd] at h
    cases h

/-- C2 witness: the assembled prompt for a concrete one-session store with one
associated non-empty document. -/
theorem prompt_window_and_context_witness :
    (Store.find wSessions "s1" = some wSession ∧
      (∀ did d, Store.find wDocs did = some d → d.content ≠ "")) ∧
    ((recent_messages wSession).length ≤ 10 ∧
     recent_messages wSession <:+ wSession.messages ∧
     build_full_prompt wSessions "q" "s1" (build_context wSessions wDocs "s1") =
       SYSTEM_PROMPT ++ "\n\n" ++
       (if build_context wSessions wDocs "s1" ≠ "" then
         "Document Context:\n" ++ build_context wSessions wDocs "s1" ++ "\n\n"
        else "") ++
       (if recent_messages wSession ≠ [] then
         "Recent conversation:\n" ++ render_history (recent_messages wSession) ++ "\n"
        else "") ++
       "User: " ++ "q" ++ "\nSera:" ∧
     (build_context wSessions wDocs "s1" ≠ "" ↔
       ∃ did ∈ wSession.documents, ∃ d, Store.find wDocs did = some d ∧ d.content ≠ "") ∧
     (build_context wSessions wDocs "s1" ≠ "" →
       build_context wSessions wDocs "s1" =
         String.intercalate "\n\n" (gathered_texts wDocs wSession))) :=
  ⟨⟨rfl, fun did d h => wDocs_nonempty_content did d h⟩,
   prompt_window_and_context wSessions wDocs "s1" "q" wSession rfl
     (fun did d h => wDocs_nonempty_content did d h)⟩

end HeySera
